import Mathlib

/-!
Verification of the DX coil selection engine (Coildesign.py).

The calculation pipeline is shallowly embedded: the exact-arithmetic stages
(input validation, coil geometry, circuit sizing, refrigerant performance,
design validation) are modelled over `ℚ` and `ℤ` so that they are executable,
while the stages built from transcendental correlations (heat transfer,
fin efficiency) are modelled over `ℝ`. Python's `round` (round-half-to-even)
is modelled by `pyRound`; Python dictionary lookup, which raises `KeyError`
on a missing key, is modelled by `Option`-valued tables, with each function
mirroring its own `try/except` handling of a failed lookup. Division is
Lean's total division; every division reachable from the pipeline has a
nonzero denominator.
-/

/-- Python `round` for exact rationals: round half to even (banker's
rounding), as Python 3 `round` behaves on floats. -/
def pyRound (q : ℚ) : ℤ :=
  let n := ⌊q⌋
  let r := q - n
  if r < 1/2 then n
  else if 1/2 < r then n + 1
  else if n % 2 = 0 then n else n + 1

-- === ENHANCED CONSTANTS === (module-level constants of the source)

def BTU_PER_TR : ℚ := 12000

def TR_PER_ROW_EST : ℚ := 1.75

def TUBE_PITCH_MM : ℚ := 25

def TUBE_LENGTH_FT : ℚ := 4.0

def TARGET_FACE_VELOCITY_FPM : ℚ := 450

def MAX_AIR_PRESSURE_DROP : ℚ := 0.6

/-- One entry of the source's TUBE_PROPERTIES table. -/
structure TubeProps where
  outer_dia_in : ℚ
  inner_dia_in : ℚ
  wall_thickness_in : ℚ
  area_ft2_per_ft : ℚ
  flow_area_in2 : ℚ
  perimeter_ft : ℚ
deriving DecidableEq

def tubeThreeEighths : TubeProps :=
  { outer_dia_in := 0.375, inner_dia_in := 0.311, wall_thickness_in := 0.032,
    area_ft2_per_ft := 0.0982, flow_area_in2 := 0.0760, perimeter_ft := 0.0982 }

def tubeHalf : TubeProps :=
  { outer_dia_in := 0.500, inner_dia_in := 0.402, wall_thickness_in := 0.049,
    area_ft2_per_ft := 0.1309, flow_area_in2 := 0.1267, perimeter_ft := 0.1309 }

def tubeFiveEighths : TubeProps :=
  { outer_dia_in := 0.625, inner_dia_in := 0.527, wall_thickness_in := 0.049,
    area_ft2_per_ft := 0.1636, flow_area_in2 := 0.2182, perimeter_ft := 0.1636 }

/-- The TUBE_PROPERTIES dictionary: `none` models a `KeyError`. -/
def TUBE_PROPERTIES (s : String) : Option TubeProps :=
  if s = "3/8 inch" then some tubeThreeEighths
  else if s = "1/2 inch" then some tubeHalf
  else if s = "5/8 inch" then some tubeFiveEighths
  else none

/-- One entry of the source's REFRIGERANT_PROPERTIES table. -/
structure RefProps where
  refrigerating_effect_btu_per_lbm : ℚ
  vapor_density_lbm_per_ft3 : ℚ
  liquid_density_lbm_per_ft3 : ℚ
  dynamic_viscosity_lbm_per_ft_hr : ℚ
  thermal_conductivity_btu_per_hr_ft_f : ℚ
  specific_heat_btu_per_lbm_f : ℚ
  evap_temp_f : ℚ
  cond_temp_f : ℚ
  circuits_per_tr : ℚ
  min_velocity_fps : ℚ
  max_velocity_fps : ℚ
deriving DecidableEq

def R410A : RefProps :=
  { refrigerating_effect_btu_per_lbm := 51.5, vapor_density_lbm_per_ft3 := 3.43,
    liquid_density_lbm_per_ft3 := 70.5, dynamic_viscosity_lbm_per_ft_hr := 0.030,
    thermal_conductivity_btu_per_hr_ft_f := 0.0058, specific_heat_btu_per_lbm_f := 0.38,
    evap_temp_f := 40, cond_temp_f := 105, circuits_per_tr := 0.6,
    min_velocity_fps := 10, max_velocity_fps := 50 }

def R32 : RefProps :=
  { refrigerating_effect_btu_per_lbm := 95.2, vapor_density_lbm_per_ft3 := 2.85,
    liquid_density_lbm_per_ft3 := 60.8, dynamic_viscosity_lbm_per_ft_hr := 0.028,
    thermal_conductivity_btu_per_hr_ft_f := 0.0072, specific_heat_btu_per_lbm_f := 0.45,
    evap_temp_f := 40, cond_temp_f := 105, circuits_per_tr := 0.7,
    min_velocity_fps := 8, max_velocity_fps := 55 }

def R134a : RefProps :=
  { refrigerating_effect_btu_per_lbm := 71.8, vapor_density_lbm_per_ft3 := 4.12,
    liquid_density_lbm_per_ft3 := 75.2, dynamic_viscosity_lbm_per_ft_hr := 0.032,
    thermal_conductivity_btu_per_hr_ft_f := 0.0051, specific_heat_btu_per_lbm_f := 0.35,
    evap_temp_f := 40, cond_temp_f := 105, circuits_per_tr := 0.5,
    min_velocity_fps := 12, max_velocity_fps := 45 }

def R407C : RefProps :=
  { refrigerating_effect_btu_per_lbm := 58.3, vapor_density_lbm_per_ft3 := 3.28,
    liquid_density_lbm_per_ft3 := 68.9, dynamic_viscosity_lbm_per_ft_hr := 0.031,
    thermal_conductivity_btu_per_hr_ft_f := 0.0055, specific_heat_btu_per_lbm_f := 0.37,
    evap_temp_f := 40, cond_temp_f := 105, circuits_per_tr := 0.6,
    min_velocity_fps := 10, max_velocity_fps := 50 }

/-- The REFRIGERANT_PROPERTIES dictionary: `none` models a `KeyError`. -/
def REFRIGERANT_PROPERTIES (s : String) : Option RefProps :=
  if s = "R410A" then some R410A
  else if s = "R32" then some R32
  else if s = "R134a" then some R134a
  else if s = "R407C" then some R407C
  else none

-- === validate_inputs ===

/-- The CFM/TR ratio warnings of validate_inputs; their message text carries
formatted numbers, so only which rule fired is modelled. -/
inductive InputWarning where
  | lowCfmPerTr
  | highCfmPerTr
deriving DecidableEq

/-- validate_inputs: hard-range errors (their exact message strings) and
soft CFM/TR-ratio warnings, in source order. -/
def validate_inputs (tr cfm : ℚ) : List String × List InputWarning :=
  let errors :=
    (if tr ≤ 0 ∨ tr > 100 then ["Cooling capacity must be between 0.1 and 100 TR"] else []) ++
    (if cfm ≤ 0 ∨ cfm > 50000 then ["Airflow must be between 1 and 50,000 CFM"] else [])
  let cfm_per_tr := if tr > 0 then cfm / tr else 0
  let warnings :=
    if cfm_per_tr < 300 then [InputWarning.lowCfmPerTr]
    else if cfm_per_tr > 500 then [InputWarning.highCfmPerTr]
    else []
  (errors, warnings)

-- === calculate_coil_geometry ===

structure CoilGeometry where
  rows : ℤ
  tubes_per_row : ℤ
  total_tubes : ℤ
  actual_face_area_ft2 : ℚ
  actual_face_velocity_fpm : ℚ
  surface_area_ft2 : ℚ
  coil_width_ft : ℚ
  coil_depth_ft : ℚ
deriving DecidableEq

/-- The body of calculate_coil_geometry, once the tube lookup has
succeeded. -/
def coilGeometryCore (tr_design cfm : ℚ) (tube_props : TubeProps) : CoilGeometry :=
  let rows := max 1 (pyRound (tr_design / TR_PER_ROW_EST))
  let required_face_area_ft2 := cfm / TARGET_FACE_VELOCITY_FPM
  let tube_pitch_ft := TUBE_PITCH_MM / 304.8
  let tubes_per_row_float := required_face_area_ft2 / (TUBE_LENGTH_FT * tube_pitch_ft)
  let tubes_per_row := max 1 (pyRound tubes_per_row_float)
  let actual_coil_width_ft := (tubes_per_row : ℚ) * tube_pitch_ft
  let actual_face_area_ft2 := TUBE_LENGTH_FT * actual_coil_width_ft
  let actual_face_velocity_fpm := cfm / actual_face_area_ft2
  let total_tubes := rows * tubes_per_row
  let total_length_ft := (total_tubes : ℚ) * TUBE_LENGTH_FT
  let surface_area_ft2 := total_length_ft * tube_props.area_ft2_per_ft
  { rows := rows, tubes_per_row := tubes_per_row, total_tubes := total_tubes,
    actual_face_area_ft2 := actual_face_area_ft2,
    actual_face_velocity_fpm := actual_face_velocity_fpm,
    surface_area_ft2 := surface_area_ft2,
    coil_width_ft := actual_coil_width_ft,
    coil_depth_ft := (rows : ℚ) * tube_pitch_ft }

/-- calculate_coil_geometry: a failed tube lookup raises (the function
re-raises any exception), modelled as `none`. -/
def calculate_coil_geometry (tr_design cfm : ℚ) (tube_dia : String) : Option CoilGeometry :=
  (TUBE_PROPERTIES tube_dia).map (coilGeometryCore tr_design cfm)

-- === calculate_enhanced_circuits ===

/-- The body of calculate_enhanced_circuits, once the refrigerant lookup has
succeeded. Method 3 always uses the 1/2-inch tube's flow area
(`TUBE_PROPERTIES[list(TUBE_PROPERTIES.keys())[1]]` in the source). -/
def circuitsCore (tr_design : ℚ) (geometry : CoilGeometry) (ref_props : RefProps) : ℤ :=
  let circuits_from_capacity := max 1 (pyRound (tr_design / ref_props.circuits_per_tr))
  let max_tubes_per_circuit : ℚ := 18
  let circuits_from_tubes := max 1 ⌈(geometry.total_tubes : ℚ) / max_tubes_per_circuit⌉
  let capacity_btu_hr := tr_design * BTU_PER_TR
  let total_mass_flow := capacity_btu_hr / ref_props.refrigerating_effect_btu_per_lbm
  let target_velocity : ℚ := 25
  let tube_props := tubeHalf
  let flow_area_ft2 := tube_props.flow_area_in2 / 144
  let circuits_from_velocity := max 1 (pyRound (total_mass_flow /
    (3600 * ref_props.vapor_density_lbm_per_ft3 * target_velocity * flow_area_ft2)))
  let circuits := max (max circuits_from_capacity circuits_from_tubes) circuits_from_velocity
  min circuits geometry.total_tubes

/-- calculate_enhanced_circuits: its `try/except` catches any internal
failure (a failed refrigerant lookup) and returns the fallback
`max(1, round(tr_design / 2))`. -/
def calculate_enhanced_circuits (tr_design : ℚ) (geometry : CoilGeometry)
    (refrigerant : String) : ℤ :=
  match REFRIGERANT_PROPERTIES refrigerant with
  | some ref_props => circuitsCore tr_design geometry ref_props
  | none => max 1 (pyRound (tr_design / 2))

-- === calculate_refrigerant_performance ===

structure RefrigerantPerformance where
  total_mass_flow_lbm_hr : ℚ
  mass_flow_per_circuit_lbm_hr : ℚ
  velocity_ft_s : ℚ
  mass_velocity_lbm_hr_ft2 : ℚ
  volumetric_flow_ft3_s : ℚ
deriving DecidableEq

/-- The body of calculate_refrigerant_performance, once both lookups have
succeeded. -/
def refPerformanceCore (tr_design : ℚ) (circuits : ℤ) (tube_props : TubeProps)
    (ref_props : RefProps) : RefrigerantPerformance :=
  let capacity_btu_hr := tr_design * BTU_PER_TR
  let total_mass_flow_lbm_hr := capacity_btu_hr / ref_props.refrigerating_effect_btu_per_lbm
  let mass_flow_per_circuit_lbm_hr := total_mass_flow_lbm_hr / (circuits : ℚ)
  let mass_flow_per_circuit_lbm_s := mass_flow_per_circuit_lbm_hr / 3600
  let flow_area_ft2 := tube_props.flow_area_in2 / 144
  let volumetric_flow_ft3_s := mass_flow_per_circuit_lbm_s / ref_props.vapor_density_lbm_per_ft3
  let velocity_ft_s := volumetric_flow_ft3_s / flow_area_ft2
  let mass_velocity_lbm_hr_ft2 := mass_flow_per_circuit_lbm_hr / flow_area_ft2
  { total_mass_flow_lbm_hr := total_mass_flow_lbm_hr,
    mass_flow_per_circuit_lbm_hr := mass_flow_per_circuit_lbm_hr,
    velocity_ft_s := velocity_ft_s,
    mass_velocity_lbm_hr_ft2 := mass_velocity_lbm_hr_ft2,
    volumetric_flow_ft3_s := volumetric_flow_ft3_s }

/-- calculate_refrigerant_performance: a failed lookup raises (the function
re-raises), modelled as `none`. -/
def calculate_refrigerant_performance (tr_design : ℚ) (circuits : ℤ)
    (tube_dia refrigerant : String) : Option RefrigerantPerformance :=
  match REFRIGERANT_PROPERTIES refrigerant, TUBE_PROPERTIES tube_dia with
  | some ref_props, some tube_props =>
      some (refPerformanceCore tr_design circuits tube_props ref_props)
  | _, _ => none

-- === validate_design ===

structure PressureDropResult where
  air_dp_inwg : ℚ
  ref_dp_psi : ℚ
  reynolds_ref : ℚ
  friction_factor : ℚ
deriving DecidableEq

/-- The validation rules of validate_design; their message text carries
formatted numbers, so each constructor stands for one rule's message. -/
inductive DesignMsg where
  | lowRefrigerantVelocity
  | excessiveRefrigerantVelocity
  | highAirPressureDrop
  | lowFaceVelocity
  | highFaceVelocity
  | laminarFlowConditions
deriving DecidableEq

/-- The body of validate_design, once the refrigerant lookup has succeeded:
`(warnings, errors)`, each in source append order. -/
def designMessages (ref_performance : RefrigerantPerformance) (pressure_drops : PressureDropResult)
    (geometry : CoilGeometry) (ref_props : RefProps) : List DesignMsg × List DesignMsg :=
  let velocity := ref_performance.velocity_ft_s
  let air_dp := pressure_drops.air_dp_inwg
  let face_velocity := geometry.actual_face_velocity_fpm
  let velMsgs : List DesignMsg × List DesignMsg :=
    if velocity < ref_props.min_velocity_fps then ([DesignMsg.lowRefrigerantVelocity], [])
    else if velocity > ref_props.max_velocity_fps then ([], [DesignMsg.excessiveRefrigerantVelocity])
    else ([], [])
  let warnings := velMsgs.1 ++
    (if air_dp > MAX_AIR_PRESSURE_DROP then [DesignMsg.highAirPressureDrop] else []) ++
    (if face_velocity < 300 then [DesignMsg.lowFaceVelocity]
     else if face_velocity > 600 then [DesignMsg.highFaceVelocity] else []) ++
    (if pressure_drops.reynolds_ref < 2000 then [DesignMsg.laminarFlowConditions] else [])
  (warnings, velMsgs.2)

/-- validate_design: its refrigerant lookup has no `try/except`, so a failed
lookup raises, modelled as `none`. -/
def validate_design (ref_performance : RefrigerantPerformance) (pressure_drops : PressureDropResult)
    (geometry : CoilGeometry) (refrigerant : String) : Option (List DesignMsg × List DesignMsg) :=
  (REFRIGERANT_PROPERTIES refrigerant).map (designMessages ref_performance pressure_drops geometry)

-- === main's calculation pipeline (exact-arithmetic stages) ===

structure DesignRequest where
  tr_design : ℚ
  cfm : ℚ
  tube_diameter : String
  refrigerant : String
deriving DecidableEq

structure PipelineResult where
  geometry : CoilGeometry
  circuits : ℤ
  ref_performance : RefrigerantPerformance
deriving DecidableEq

/-- main's calculation flow up to refrigerant performance: if
validate_inputs produced errors, main returns before any stage runs; an
exception escaping a stage (geometry or performance) is caught by main's
outer handler, so no result is produced. -/
def mainPipeline (req : DesignRequest) : Option PipelineResult :=
  if (validate_inputs req.tr_design req.cfm).1 ≠ [] then none
  else
    match calculate_coil_geometry req.tr_design req.cfm req.tube_diameter with
    | none => none
    | some geometry =>
      let circuits := calculate_enhanced_circuits req.tr_design geometry req.refrigerant
      match calculate_refrigerant_performance req.tr_design circuits
          req.tube_diameter req.refrigerant with
      | none => none
      | some ref_performance => some ⟨geometry, circuits, ref_performance⟩

/-- A concrete coil geometry used for closed instantiations. -/
def gSample : CoilGeometry :=
  { rows := 6, tubes_per_row := 27, total_tubes := 162,
    actual_face_area_ft2 := 9, actual_face_velocity_fpm := 450,
    surface_area_ft2 := 85, coil_width_ft := 9/4, coil_depth_ft := 1/2 }

/-- A concrete refrigerant performance with velocity 20 ft/s (within R410A's
10–50 ft/s band), used for closed instantiations. -/
def perfSafeVel : RefrigerantPerformance :=
  { total_mass_flow_lbm_hr := 2330, mass_flow_per_circuit_lbm_hr := 233,
    velocity_ft_s := 20, mass_velocity_lbm_hr_ft2 := 100000,
    volumetric_flow_ft3_s := 1 }

/-- A concrete pressure-drop result with air-side drop 0.7 in WG. -/
def pdSeven : PressureDropResult :=
  { air_dp_inwg := 0.7, ref_dp_psi := 1, reynolds_ref := 5000,
    friction_factor := 1/50 }

/-- A concrete refrigerant performance whose mass velocity makes the
computed Reynolds number for the 1/2-inch tube and R410A exactly 2300:
`(138000/67) * (0.402/12) / 0.030 = 2300`. -/
def perfRe2300 : RefrigerantPerformance :=
  { total_mass_flow_lbm_hr := 0, mass_flow_per_circuit_lbm_hr := 0,
    velocity_ft_s := 0, mass_velocity_lbm_hr_ft2 := 138000/67,
    volumetric_flow_ft3_s := 0 }

/-- The invariants of claim C4 over one request's pipeline results. -/
def pipelineInvariants (geometry : CoilGeometry) (circuits : ℤ)
    (ref_performance : RefrigerantPerformance) : Prop :=
  1 ≤ geometry.rows ∧ 1 ≤ geometry.tubes_per_row ∧
  geometry.total_tubes = geometry.rows * geometry.tubes_per_row ∧
  1 ≤ circuits ∧ circuits ≤ geometry.total_tubes ∧
  0 ≤ geometry.actual_face_area_ft2 ∧ 0 ≤ geometry.actual_face_velocity_fpm ∧
  0 ≤ geometry.surface_area_ft2 ∧
  0 ≤ ref_performance.total_mass_flow_lbm_hr ∧
  0 ≤ ref_performance.mass_flow_per_circuit_lbm_hr ∧
  0 ≤ ref_performance.velocity_ft_s ∧
  0 ≤ ref_performance.mass_velocity_lbm_hr_ft2 ∧
  0 ≤ ref_performance.volumetric_flow_ft3_s

-- === calculate_heat_transfer_coefficient ===

structure HeatTransferResult where
  h_coeff : ℝ
  reynolds : ℝ
  prandtl : ℝ
  nusselt : ℝ
  flow_regime : String

/-- The body of calculate_heat_transfer_coefficient, once both lookups have
succeeded. Python's `** 0.5` on the nonnegative `f/8` is `Real.sqrt`;
`** 0.8`, `** 0.4` and `** (2/3)` are real powers; `math.log` is the
natural logarithm. -/
noncomputable def heatTransferCore (ref_performance : RefrigerantPerformance)
    (tube_props : TubeProps) (ref_props : RefProps) : HeatTransferResult :=
  let inner_dia_ft : ℝ := (tube_props.inner_dia_in : ℝ) / 12
  let G : ℝ := (ref_performance.mass_velocity_lbm_hr_ft2 : ℝ)
  let mu : ℝ := (ref_props.dynamic_viscosity_lbm_per_ft_hr : ℝ)
  let reynolds := G * inner_dia_ft / mu
  let cp : ℝ := (ref_props.specific_heat_btu_per_lbm_f : ℝ)
  let k : ℝ := (ref_props.thermal_conductivity_btu_per_hr_ft_f : ℝ)
  let prandtl := cp * mu / k
  let nusselt :=
    if reynolds > 10000 then
      let f := (0.790 * Real.log reynolds - 1.64) ^ (-2 : ℤ)
      ((f / 8) * (reynolds - 1000) * prandtl) /
        (1 + 12.7 * Real.sqrt (f / 8) * (prandtl ^ ((2 : ℝ) / 3) - 1))
    else if reynolds > 2300 then
      0.023 * reynolds ^ (0.8 : ℝ) * prandtl ^ (0.4 : ℝ)
    else
      3.66
  { h_coeff := nusselt * k / inner_dia_ft,
    reynolds := reynolds,
    prandtl := prandtl,
    nusselt := nusselt,
    flow_regime :=
      if reynolds > 4000 then "Turbulent"
      else if reynolds > 2300 then "Transition"
      else "Laminar" }

/-- calculate_heat_transfer_coefficient: its `try/except` catches any
internal failure (a failed lookup) and returns the fixed placeholder
result. -/
noncomputable def calculate_heat_transfer_coefficient (ref_performance : RefrigerantPerformance)
    (tube_dia refrigerant : String) : HeatTransferResult :=
  match REFRIGERANT_PROPERTIES refrigerant, TUBE_PROPERTIES tube_dia with
  | some ref_props, some tube_props => heatTransferCore ref_performance tube_props ref_props
  | _, _ => { h_coeff := 100, reynolds := 5000, prandtl := 1, nusselt := 20,
              flow_regime := "Estimated" }

-- === calculate_fin_efficiency ===

structure FinEfficiencyResult where
  fin_efficiency : ℝ
  surface_effectiveness : ℝ
  fin_height_in : ℝ
  h_air : ℝ

/-- The fin-efficiency conditional of the source: `tanh(mL)/mL` when
`mL > 0.01`, else `1.0`. -/
noncomputable def finEfficiencyOfML (m_L : ℝ) : ℝ :=
  if m_L > 0.01 then Real.tanh m_L / m_L else 1.0

/-- The body of calculate_fin_efficiency, once the tube lookup has
succeeded. -/
noncomputable def finEfficiencyCore (tube_props : TubeProps)
    (fin_spacing_fpi fin_thickness_in face_velocity_fpm : ℝ) : FinEfficiencyResult :=
  let tube_pitch_in : ℝ := (TUBE_PITCH_MM : ℝ) / 25.4
  let tube_outer_dia_in : ℝ := (tube_props.outer_dia_in : ℝ)
  let fin_height_in := (tube_pitch_in - tube_outer_dia_in) / 2
  let k_fin : ℝ := 120
  let h_air := 8 + 0.025 * face_velocity_fpm
  let m := Real.sqrt (2 * h_air / (k_fin * fin_thickness_in))
  let m_L := m * fin_height_in
  let fin_eff := finEfficiencyOfML m_L
  let fin_spacing_in := 1 / fin_spacing_fpi
  let fin_area_per_tube := 2 * fin_height_in * fin_spacing_in
  let bare_tube_area_per_tube := Real.pi * tube_outer_dia_in * fin_spacing_in
  let total_surface_area := fin_area_per_tube + bare_tube_area_per_tube
  let effective_surface_area := fin_eff * fin_area_per_tube + bare_tube_area_per_tube
  { fin_efficiency := fin_eff,
    surface_effectiveness :=
      if total_surface_area > 0 then effective_surface_area / total_surface_area else 1.0,
    fin_height_in := fin_height_in,
    h_air := h_air }

/-- calculate_fin_efficiency: its `try/except` catches any internal failure
(a failed tube lookup) and returns the fixed placeholder result. -/
noncomputable def calculate_fin_efficiency (tube_dia : String)
    (fin_spacing_fpi fin_thickness_in face_velocity_fpm : ℝ) : FinEfficiencyResult :=
  match TUBE_PROPERTIES tube_dia with
  | some tube_props =>
      finEfficiencyCore tube_props fin_spacing_fpi fin_thickness_in face_velocity_fpm
  | none => { fin_efficiency := 0.85, surface_effectiveness := 0.90,
              fin_height_in := 0.5, h_air := 15 }

/-- Table lookups at the keys used in concrete evaluations. -/
theorem TUBE_PROPERTIES_half : TUBE_PROPERTIES "1/2 inch" = some tubeHalf := rfl

theorem REFRIGERANT_PROPERTIES_R410A : REFRIGERANT_PROPERTIES "R410A" = some R410A := rfl

theorem REFRIGERANT_PROPERTIES_R22 : REFRIGERANT_PROPERTIES "R22" = none := rfl

/-- Every tube record of the table has positive inner diameter, external
area per foot and flow area, and outer diameter at most 0.625 in. -/
theorem tube_table_facts (s : String) (tube_props : TubeProps)
    (h : TUBE_PROPERTIES s = some tube_props) :
    0 < tube_props.inner_dia_in ∧ 0 < tube_props.area_ft2_per_ft ∧
    0 < tube_props.flow_area_in2 ∧ tube_props.outer_dia_in ≤ 0.625 := by
  unfold TUBE_PROPERTIES at h
  split_ifs at h
  · injection h with h; subst h; norm_num [tubeThreeEighths]
  · injection h with h; subst h; norm_num [tubeHalf]
  · injection h with h; subst h; norm_num [tubeFiveEighths]

/-- Every refrigerant record of the table has positive refrigerating
effect, vapor density, circuits-per-TR ratio, viscosity, conductivity and
specific heat, and its minimum velocity is below its maximum velocity. -/
theorem ref_table_facts (s : String) (ref_props : RefProps)
    (h : REFRIGERANT_PROPERTIES s = some ref_props) :
    0 < ref_props.refrigerating_effect_btu_per_lbm ∧
    0 < ref_props.vapor_density_lbm_per_ft3 ∧
    0 < ref_props.circuits_per_tr ∧
    0 < ref_props.dynamic_viscosity_lbm_per_ft_hr ∧
    0 < ref_props.thermal_conductivity_btu_per_hr_ft_f ∧
    0 < ref_props.specific_heat_btu_per_lbm_f ∧
    ref_props.min_velocity_fps < ref_props.max_velocity_fps := by
  unfold REFRIGERANT_PROPERTIES at h
  split_ifs at h
  · injection h with h; subst h; norm_num [R410A]
  · injection h with h; subst h; norm_num [R32]
  · injection h with h; subst h; norm_num [R134a]
  · injection h with h; subst h; norm_num [R407C]

-- Field equations of the exact-arithmetic stages (all definitional).

theorem coilGeometryCore_rows (tr_design cfm : ℚ) (tube_props : TubeProps) :
    (coilGeometryCore tr_design cfm tube_props).rows =
      max 1 (pyRound (tr_design / TR_PER_ROW_EST)) := rfl

theorem coilGeometryCore_tubes_per_row (tr_design cfm : ℚ) (tube_props : TubeProps) :
    (coilGeometryCore tr_design cfm tube_props).tubes_per_row =
      max 1 (pyRound (cfm / TARGET_FACE_VELOCITY_FPM /
        (TUBE_LENGTH_FT * (TUBE_PITCH_MM / 304.8)))) := rfl

theorem coilGeometryCore_total_tubes (tr_design cfm : ℚ) (tube_props : TubeProps) :
    (coilGeometryCore tr_design cfm tube_props).total_tubes =
      (coilGeometryCore tr_design cfm tube_props).rows *
        (coilGeometryCore tr_design cfm tube_props).tubes_per_row := rfl

theorem coilGeometryCore_face_area (tr_design cfm : ℚ) (tube_props : TubeProps) :
    (coilGeometryCore tr_design cfm tube_props).actual_face_area_ft2 =
      TUBE_LENGTH_FT * (((coilGeometryCore tr_design cfm tube_props).tubes_per_row : ℚ) *
        (TUBE_PITCH_MM / 304.8)) := rfl

theorem coilGeometryCore_face_velocity (tr_design cfm : ℚ) (tube_props : TubeProps) :
    (coilGeometryCore tr_design cfm tube_props).actual_face_velocity_fpm =
      cfm / (coilGeometryCore tr_design cfm tube_props).actual_face_area_ft2 := rfl

theorem coilGeometryCore_surface_area (tr_design cfm : ℚ) (tube_props : TubeProps) :
    (coilGeometryCore tr_design cfm tube_props).surface_area_ft2 =
      ((coilGeometryCore tr_design cfm tube_props).total_tubes : ℚ) * TUBE_LENGTH_FT *
        tube_props.area_ft2_per_ft := rfl

theorem refPerformanceCore_fields (tr_design : ℚ) (circuits : ℤ)
    (tube_props : TubeProps) (ref_props : RefProps) :
    (refPerformanceCore tr_design circuits tube_props ref_props).total_mass_flow_lbm_hr =
      tr_design * BTU_PER_TR / ref_props.refrigerating_effect_btu_per_lbm ∧
    (refPerformanceCore tr_design circuits tube_props ref_props).mass_flow_per_circuit_lbm_hr =
      (refPerformanceCore tr_design circuits tube_props ref_props).total_mass_flow_lbm_hr /
        (circuits : ℚ) ∧
    (refPerformanceCore tr_design circuits tube_props ref_props).volumetric_flow_ft3_s =
      (refPerformanceCore tr_design circuits tube_props ref_props).mass_flow_per_circuit_lbm_hr /
        3600 / ref_props.vapor_density_lbm_per_ft3 ∧
    (refPerformanceCore tr_design circuits tube_props ref_props).velocity_ft_s =
      (refPerformanceCore tr_design circuits tube_props ref_props).volumetric_flow_ft3_s /
        (tube_props.flow_area_in2 / 144) ∧
    (refPerformanceCore tr_design circuits tube_props ref_props).mass_velocity_lbm_hr_ft2 =
      (refPerformanceCore tr_design circuits tube_props ref_props).mass_flow_per_circuit_lbm_hr /
        (tube_props.flow_area_in2 / 144) :=
  ⟨rfl, rfl, rfl, rfl, rfl⟩

example : pyRound (9/10 / (7/4) : ℚ) = 1 := by norm_num [pyRound]
example : pyRound (5/2 : ℚ) = 2 := by norm_num [pyRound]
example : pyRound (-5/2 : ℚ) = -2 := by norm_num [pyRound]
example : pyRound (10/2 : ℚ) = 5 := by norm_num [pyRound]
example : TUBE_PROPERTIES "1/2 inch" = some tubeHalf := rfl
example : REFRIGERANT_PROPERTIES "R22" = none := rfl
example : (coilGeometryCore 10 4000 tubeHalf).rows = 6 := by
  norm_num [coilGeometryCore, pyRound, TR_PER_ROW_EST]
example : (coilGeometryCore 10 4000 tubeHalf).tubes_per_row = 27 := by
  norm_num [coilGeometryCore, pyRound, TARGET_FACE_VELOCITY_FPM, TUBE_PITCH_MM, TUBE_LENGTH_FT]
example : calculate_enhanced_circuits 10 (coilGeometryCore 10 4000 tubeHalf) "R22" = 5 := by
  norm_num [calculate_enhanced_circuits, REFRIGERANT_PROPERTIES_R22, pyRound]
example : mainPipeline ⟨10, 4000, "1/2 inch", "R22"⟩ = none := by
  norm_num [mainPipeline, validate_inputs, calculate_coil_geometry, TUBE_PROPERTIES_half,
    calculate_refrigerant_performance, REFRIGERANT_PROPERTIES_R22]
example : mainPipeline ⟨150, 50000, "1/2 inch", "R410A"⟩ = none := by
  norm_num [mainPipeline, validate_inputs]

-- === Claim C3 ===

/-- Claim C3: for every valid capacity, geometry and refrigerant,
CircuitSizer returns `min(max(c1, c2, c3), total_tubes)` with
`c1 = max(1, round(capacity / circuits_per_tr))`,
`c2 = max(1, ceil(total_tubes / 18))` and
`c3 = max(1, round(total_mass_flow / (3600 * vapor_density * 25 * A)))`
where `total_mass_flow = capacity * 12000 / refrigerating_effect` and `A`
is the 1/2-inch tube's internal flow area in square feet, regardless of the
user's selected tube diameter (the function takes no tube parameter). -/
theorem circuits_formula (tr_design : ℚ) (geometry : CoilGeometry) (refrigerant : String)
    (ref_props : RefProps) (href : REFRIGERANT_PROPERTIES refrigerant = some ref_props) :
    calculate_enhanced_circuits tr_design geometry refrigerant =
      min (max (max (max 1 (pyRound (tr_design / ref_props.circuits_per_tr)))
                    (max 1 ⌈(geometry.total_tubes : ℚ) / 18⌉))
               (max 1 (pyRound ((tr_design * 12000 / ref_props.refrigerating_effect_btu_per_lbm) /
                  (3600 * ref_props.vapor_density_lbm_per_ft3 * 25 *
                    (tubeHalf.flow_area_in2 / 144))))))
          geometry.total_tubes := by
  simp [calculate_enhanced_circuits, href, circuitsCore, BTU_PER_TR]

/-- Witness for C3: the formula evaluated at capacity 10 TR, a concrete
geometry and R410A. -/
theorem circuits_formula_witness :
    calculate_enhanced_circuits 10 gSample "R410A" =
      min (max (max (max 1 (pyRound (10 / R410A.circuits_per_tr)))
                    (max 1 ⌈(gSample.total_tubes : ℚ) / 18⌉))
               (max 1 (pyRound ((10 * 12000 / R410A.refrigerating_effect_btu_per_lbm) /
                  (3600 * R410A.vapor_density_lbm_per_ft3 * 25 *
                    (tubeHalf.flow_area_in2 / 144))))))
          gSample.total_tubes :=
  circuits_formula 10 gSample "R410A" R410A REFRIGERANT_PROPERTIES_R410A

-- === Claim C5 ===

/-- Claim C5: for every capacity > 0, airflow > 0 and tube selection,
GeometryCalculator returns `rows = max(1, round(capacity / 1.75))`,
`tubes_per_row = max(1, round((airflow / 450) / (4.0 * (25 / 304.8))))`,
actual face area `4.0 * tubes_per_row * (25 / 304.8)`, actual face velocity
`airflow / actual face area` (reported as computed, not corrected to the
450 FPM target), `total_tubes = rows * tubes_per_row`, and surface area
`total_tubes * 4.0 * external area per foot`. -/
theorem geometry_formulas (tr_design cfm : ℚ) (tube_dia : String) (tube_props : TubeProps)
    (htube : TUBE_PROPERTIES tube_dia = some tube_props)
    (htr : 0 < tr_design) (hcfm : 0 < cfm) :
    calculate_coil_geometry tr_design cfm tube_dia =
      some (coilGeometryCore tr_design cfm tube_props) ∧
    (coilGeometryCore tr_design cfm tube_props).rows =
      max 1 (pyRound (tr_design / 1.75)) ∧
    (coilGeometryCore tr_design cfm tube_props).tubes_per_row =
      max 1 (pyRound ((cfm / 450) / (4.0 * (25 / 304.8)))) ∧
    (coilGeometryCore tr_design cfm tube_props).actual_face_area_ft2 =
      4.0 * ((coilGeometryCore tr_design cfm tube_props).tubes_per_row : ℚ) * (25 / 304.8) ∧
    (coilGeometryCore tr_design cfm tube_props).actual_face_velocity_fpm =
      cfm / (coilGeometryCore tr_design cfm tube_props).actual_face_area_ft2 ∧
    (coilGeometryCore tr_design cfm tube_props).total_tubes =
      (coilGeometryCore tr_design cfm tube_props).rows *
        (coilGeometryCore tr_design cfm tube_props).tubes_per_row ∧
    (coilGeometryCore tr_design cfm tube_props).surface_area_ft2 =
      ((coilGeometryCore tr_design cfm tube_props).total_tubes : ℚ) * 4.0 *
        tube_props.area_ft2_per_ft := by
  refine ⟨by simp [calculate_coil_geometry, htube], ?_, ?_, ?_, ?_, ?_, ?_⟩ <;>
    simp only [coilGeometryCore_rows, coilGeometryCore_tubes_per_row,
      coilGeometryCore_total_tubes, coilGeometryCore_face_area,
      coilGeometryCore_face_velocity, coilGeometryCore_surface_area,
      TR_PER_ROW_EST, TARGET_FACE_VELOCITY_FPM, TUBE_PITCH_MM, TUBE_LENGTH_FT] <;>
    ring_nf

/-- Witness for C5 at capacity 0.9 TR, airflow 400 CFM and the 1/2-inch
tube; in particular rows = 1, never 0. -/
theorem geometry_formulas_witness :
    (calculate_coil_geometry (0.9 : ℚ) 400 "1/2 inch" =
        some (coilGeometryCore 0.9 400 tubeHalf) ∧
      (coilGeometryCore (0.9 : ℚ) 400 tubeHalf).rows =
        max 1 (pyRound ((0.9 : ℚ) / 1.75)) ∧
      (coilGeometryCore (0.9 : ℚ) 400 tubeHalf).tubes_per_row =
        max 1 (pyRound (((400 : ℚ) / 450) / (4.0 * (25 / 304.8)))) ∧
      (coilGeometryCore (0.9 : ℚ) 400 tubeHalf).actual_face_area_ft2 =
        4.0 * ((coilGeometryCore (0.9 : ℚ) 400 tubeHalf).tubes_per_row : ℚ) * (25 / 304.8) ∧
      (coilGeometryCore (0.9 : ℚ) 400 tubeHalf).actual_face_velocity_fpm =
        400 / (coilGeometryCore (0.9 : ℚ) 400 tubeHalf).actual_face_area_ft2 ∧
      (coilGeometryCore (0.9 : ℚ) 400 tubeHalf).total_tubes =
        (coilGeometryCore (0.9 : ℚ) 400 tubeHalf).rows *
          (coilGeometryCore (0.9 : ℚ) 400 tubeHalf).tubes_per_row ∧
      (coilGeometryCore (0.9 : ℚ) 400 tubeHalf).surface_area_ft2 =
        ((coilGeometryCore (0.9 : ℚ) 400 tubeHalf).total_tubes : ℚ) * 4.0 *
          tubeHalf.area_ft2_per_ft) ∧
    (coilGeometryCore (0.9 : ℚ) 400 tubeHalf).rows = 1 :=
  ⟨geometry_formulas 0.9 400 "1/2 inch" tubeHalf TUBE_PROPERTIES_half
      (by norm_num) (by norm_num),
    by norm_num [coilGeometryCore_rows, pyRound, TR_PER_ROW_EST]⟩

-- === Claim C6 ===

/-- Claim C6: a DesignRequest with capacity ≤ 0 or > 100 TR, or airflow
≤ 0 or > 50000 CFM, makes validate_inputs produce errors and main return
before any pipeline stage runs; with capacity = 150 TR (and in-range
airflow) the errors list is exactly the capacity-range message. -/
theorem invalid_request_rejected (req : DesignRequest)
    (h : req.tr_design ≤ 0 ∨ 100 < req.tr_design ∨ req.cfm ≤ 0 ∨ 50000 < req.cfm) :
    (validate_inputs req.tr_design req.cfm).1 ≠ [] ∧ mainPipeline req = none ∧
    (req.tr_design = 150 → 0 < req.cfm → req.cfm ≤ 50000 →
      (validate_inputs req.tr_design req.cfm).1 =
        ["Cooling capacity must be between 0.1 and 100 TR"]) := by
  have herr : (validate_inputs req.tr_design req.cfm).1 ≠ [] := by
    show ((if req.tr_design ≤ 0 ∨ req.tr_design > 100 then
        ["Cooling capacity must be between 0.1 and 100 TR"] else []) ++
      (if req.cfm ≤ 0 ∨ req.cfm > 50000 then
        ["Airflow must be between 1 and 50,000 CFM"] else [])) ≠ []
    rcases h with h | h | h | h
    · rw [if_pos (Or.inl h)]; simp
    · rw [if_pos (Or.inr h)]; simp
    · rw [if_pos (Or.inl h)]; simp
    · rw [if_pos (Or.inr h)]; simp
  refine ⟨herr, ?_, ?_⟩
  · simp only [mainPipeline]
    rw [if_pos herr]
  · intro h150 hpos hle
    simp only [validate_inputs]
    rw [if_pos (by rw [h150]; norm_num),
      if_neg (by push_neg; exact ⟨hpos, hle⟩)]
    simp

/-- Witness for C6: capacity 150 TR with airflow 50000 CFM is rejected with
exactly the capacity-range error and the pipeline produces nothing. -/
theorem invalid_request_rejected_witness :
    (validate_inputs (150 : ℚ) 50000).1 ≠ [] ∧
    mainPipeline ⟨150, 50000, "1/2 inch", "R410A"⟩ = none ∧
    ((150 : ℚ) = 150 → (0 : ℚ) < 50000 → (50000 : ℚ) ≤ 50000 →
      (validate_inputs (150 : ℚ) 50000).1 =
        ["Cooling capacity must be between 0.1 and 100 TR"]) :=
  invalid_request_rejected ⟨150, 50000, "1/2 inch", "R410A"⟩ (by norm_num)

-- === Claim C7 ===

/-- The errors list of validate_design, written without the pair. -/
theorem designMessages_errors (ref_performance : RefrigerantPerformance)
    (pressure_drops : PressureDropResult) (geometry : CoilGeometry) (ref_props : RefProps) :
    (designMessages ref_performance pressure_drops geometry ref_props).2 =
      if ref_performance.velocity_ft_s < ref_props.min_velocity_fps then []
      else if ref_performance.velocity_ft_s > ref_props.max_velocity_fps then
        [DesignMsg.excessiveRefrigerantVelocity]
      else [] := by
  simp only [designMessages]
  split_ifs <;> rfl

/-- The warnings list of validate_design, written without the pair. -/
theorem designMessages_warnings (ref_performance : RefrigerantPerformance)
    (pressure_drops : PressureDropResult) (geometry : CoilGeometry) (ref_props : RefProps) :
    (designMessages ref_performance pressure_drops geometry ref_props).1 =
      (if ref_performance.velocity_ft_s < ref_props.min_velocity_fps then
        [DesignMsg.lowRefrigerantVelocity] else []) ++
      (if pressure_drops.air_dp_inwg > MAX_AIR_PRESSURE_DROP then
        [DesignMsg.highAirPressureDrop] else []) ++
      (if geometry.actual_face_velocity_fpm < 300 then [DesignMsg.lowFaceVelocity]
       else if geometry.actual_face_velocity_fpm > 600 then [DesignMsg.highFaceVelocity]
       else []) ++
      (if pressure_drops.reynolds_ref < 2000 then [DesignMsg.laminarFlowConditions] else []) := by
  simp only [designMessages]
  split_ifs <;> rfl

/-- Claim C7: over-velocity puts exactly one entry referencing excessive
velocity in the errors list and none in the warnings; under-velocity
produces only a warning (no error); over-velocity is the only rule that
produces an error. -/
theorem validator_velocity_rules (ref_performance : RefrigerantPerformance)
    (pressure_drops : PressureDropResult) (geometry : CoilGeometry) (refrigerant : String)
    (ref_props : RefProps) (href : REFRIGERANT_PROPERTIES refrigerant = some ref_props) :
    validate_design ref_performance pressure_drops geometry refrigerant =
      some (designMessages ref_performance pressure_drops geometry ref_props) ∧
    (ref_performance.velocity_ft_s > ref_props.max_velocity_fps →
      (designMessages ref_performance pressure_drops geometry ref_props).2 =
        [DesignMsg.excessiveRefrigerantVelocity] ∧
      DesignMsg.excessiveRefrigerantVelocity ∉
        (designMessages ref_performance pressure_drops geometry ref_props).1) ∧
    (ref_performance.velocity_ft_s < ref_props.min_velocity_fps →
      (designMessages ref_performance pressure_drops geometry ref_props).2 = [] ∧
      DesignMsg.lowRefrigerantVelocity ∈
        (designMessages ref_performance pressure_drops geometry ref_props).1) ∧
    ((designMessages ref_performance pressure_drops geometry ref_props).2 ≠ [] →
      ref_performance.velocity_ft_s > ref_props.max_velocity_fps) := by
  obtain ⟨-, -, -, -, -, -, hminmax⟩ := ref_table_facts refrigerant ref_props href
  refine ⟨by simp [validate_design, href], ?_, ?_, ?_⟩
  · intro hv
    have hnotmin : ¬ ref_performance.velocity_ft_s < ref_props.min_velocity_fps := by
      push_neg
      linarith
    constructor
    · rw [designMessages_errors, if_neg hnotmin, if_pos hv]
    · rw [designMessages_warnings, if_neg hnotmin]
      split_ifs <;> simp
  · intro hv
    constructor
    · rw [designMessages_errors, if_pos hv]
    · rw [designMessages_warnings, if_pos hv]
      simp
  · intro hne
    rw [designMessages_errors] at hne
    by_contra hv
    rcases lt_or_le ref_performance.velocity_ft_s ref_props.min_velocity_fps with hlt | hge
    · rw [if_pos hlt] at hne
      exact hne rfl
    · rw [if_neg (not_lt.mpr hge), if_neg hv] at hne
      exact hne rfl

/-- Witness for C7: R410A with a concrete performance at 55 ft/s, above
R410A's 50 ft/s limit. -/
theorem validator_velocity_rules_witness :
    (validate_design ⟨2330, 233, 55, 100000, 1⟩ pdSeven gSample "R410A" =
      some (designMessages ⟨2330, 233, 55, 100000, 1⟩ pdSeven gSample R410A) ∧
    ((⟨2330, 233, 55, 100000, 1⟩ : RefrigerantPerformance).velocity_ft_s >
        R410A.max_velocity_fps →
      (designMessages ⟨2330, 233, 55, 100000, 1⟩ pdSeven gSample R410A).2 =
        [DesignMsg.excessiveRefrigerantVelocity] ∧
      DesignMsg.excessiveRefrigerantVelocity ∉
        (designMessages ⟨2330, 233, 55, 100000, 1⟩ pdSeven gSample R410A).1) ∧
    ((⟨2330, 233, 55, 100000, 1⟩ : RefrigerantPerformance).velocity_ft_s <
        R410A.min_velocity_fps →
      (designMessages ⟨2330, 233, 55, 100000, 1⟩ pdSeven gSample R410A).2 = [] ∧
      DesignMsg.lowRefrigerantVelocity ∈
        (designMessages ⟨2330, 233, 55, 100000, 1⟩ pdSeven gSample R410A).1) ∧
    ((designMessages ⟨2330, 233, 55, 100000, 1⟩ pdSeven gSample R410A).2 ≠ [] →
      (⟨2330, 233, 55, 100000, 1⟩ : RefrigerantPerformance).velocity_ft_s >
        R410A.max_velocity_fps)) ∧
    (55 : ℚ) > R410A.max_velocity_fps :=
  ⟨validator_velocity_rules ⟨2330, 233, 55, 100000, 1⟩ pdSeven gSample "R410A" R410A
      REFRIGERANT_PROPERTIES_R410A,
    by norm_num [R410A]⟩

-- === Claim C9 ===

/-- Counterexample to claim C9: DesignValidator does not use the
user-configured maximum air pressure drop. With the configured maximum set
to 1.0 in WG (an allowed sidebar value) and a computed air-side drop of
0.7 in WG, the claim predicts no warning, yet validate_design emits the
high-air-pressure-drop warning, because it compares against the fixed
module constant 0.6. -/
theorem air_dp_limit_counterexample :
    validate_design perfSafeVel pdSeven gSample "R410A" =
      some ([DesignMsg.highAirPressureDrop], []) ∧
    ¬ ((0.7 : ℚ) > 1) := by
  constructor
  · rw [validate_design, REFRIGERANT_PROPERTIES_R410A, Option.map_some']
    have : designMessages perfSafeVel pdSeven gSample R410A =
        ([DesignMsg.highAirPressureDrop], []) := by
      refine Prod.ext_iff.mpr ⟨?_, ?_⟩
      · rw [designMessages_warnings]
        norm_num [perfSafeVel, pdSeven, gSample, R410A, MAX_AIR_PRESSURE_DROP]
      · rw [designMessages_errors]
        norm_num [perfSafeVel, R410A]
    rw [this]
  · norm_num

/-- Claim C9 amended: validate_design compares the computed air-side
pressure drop against the fixed module constant MAX_AIR_PRESSURE_DROP
(0.6 in WG), not against the user-configured limit, and emits the
high-air-pressure-drop warning exactly when the drop exceeds 0.6. -/
theorem air_dp_warning_fixed_threshold (ref_performance : RefrigerantPerformance)
    (pressure_drops : PressureDropResult) (geometry : CoilGeometry) (refrigerant : String)
    (ref_props : RefProps) (href : REFRIGERANT_PROPERTIES refrigerant = some ref_props) :
    validate_design ref_performance pressure_drops geometry refrigerant =
      some (designMessages ref_performance pressure_drops geometry ref_props) ∧
    (DesignMsg.highAirPressureDrop ∈
        (designMessages ref_performance pressure_drops geometry ref_props).1 ↔
      pressure_drops.air_dp_inwg > MAX_AIR_PRESSURE_DROP) ∧
    MAX_AIR_PRESSURE_DROP = 0.6 := by
  refine ⟨by simp [validate_design, href], ?_, rfl⟩
  rw [designMessages_warnings]
  constructor
  · intro hmem
    by_contra hdp
    rw [if_neg hdp] at hmem
    split_ifs at hmem <;> simp_all
  · intro hdp
    rw [if_pos hdp]
    simp

/-- Witness for C9's amended statement at a concrete input. -/
theorem air_dp_warning_fixed_threshold_witness :
    validate_design perfSafeVel pdSeven gSample "R410A" =
      some (designMessages perfSafeVel pdSeven gSample R410A) ∧
    (DesignMsg.highAirPressureDrop ∈ (designMessages perfSafeVel pdSeven gSample R410A).1 ↔
      pdSeven.air_dp_inwg > MAX_AIR_PRESSURE_DROP) ∧
    MAX_AIR_PRESSURE_DROP = 0.6 :=
  air_dp_warning_fixed_threshold perfSafeVel pdSeven gSample "R410A" R410A
    REFRIGERANT_PROPERTIES_R410A

-- === Claim C8 ===

/-- Counterexample to claim C8: with the invalid refrigerant key R22 (the
only way CircuitSizer's internal computation can raise), CircuitSizer does
return the fallback `max(1, round(capacity / 2))`, but the pipeline does
not continue to completion: calculate_refrigerant_performance raises on
the same key, main's handler catches it, and no result (and no warning) is
produced. -/
theorem circuit_fallback_counterexample :
    REFRIGERANT_PROPERTIES "R22" = none ∧
    calculate_enhanced_circuits 10 (coilGeometryCore 10 4000 tubeHalf) "R22" =
      max 1 (pyRound (10 / 2)) ∧
    mainPipeline ⟨10, 4000, "1/2 inch", "R22"⟩ = none := by
  refine ⟨rfl, ?_, ?_⟩
  · simp [calculate_enhanced_circuits, REFRIGERANT_PROPERTIES_R22]
  · norm_num [mainPipeline, validate_inputs, calculate_coil_geometry, TUBE_PROPERTIES_half,
      calculate_refrigerant_performance, REFRIGERANT_PROPERTIES_R22]

/-- Claim C8 amended: if CircuitSizer's internal computation raises (a
refrigerant key missing from the table), it returns the fallback
`max(1, round(capacity / 2))` instead of raising, and the failure is only
logged, surfaced neither as a warning nor as an error; the pipeline then
aborts in calculate_refrigerant_performance, which has no fallback for the
same missing key, so it does not run to completion. -/
theorem circuit_fallback_behavior (tr_design : ℚ) (geometry : CoilGeometry)
    (req : DesignRequest) (h1 : REFRIGERANT_PROPERTIES req.refrigerant = none) :
    calculate_enhanced_circuits tr_design geometry req.refrigerant =
      max 1 (pyRound (tr_design / 2)) ∧
    mainPipeline req = none := by
  constructor
  · simp [calculate_enhanced_circuits, h1]
  · simp only [mainPipeline]
    split_ifs with hv
    · rfl
    · cases htube : calculate_coil_geometry req.tr_design req.cfm req.tube_diameter with
      | none => rfl
      | some g => simp [htube, calculate_refrigerant_performance, h1]

/-- Witness for C8's amended statement at capacity 7 TR and refrigerant
key R22. -/
theorem circuit_fallback_behavior_witness :
    calculate_enhanced_circuits 7 gSample "R22" = max 1 (pyRound (7 / 2)) ∧
    mainPipeline ⟨7, 2800, "1/2 inch", "R22"⟩ = none :=
  circuit_fallback_behavior 7 gSample ⟨7, 2800, "1/2 inch", "R22"⟩
    REFRIGERANT_PROPERTIES_R22

-- === Claim C4 ===

/-- Claim C4: for all valid requests, the pipeline's results satisfy
rows ≥ 1, tubes_per_row ≥ 1, 1 ≤ circuits ≤ total_tubes with
total_tubes = rows × tubes_per_row, and all velocities, flows and areas
are non-negative. -/
theorem pipeline_invariants (tr_design cfm : ℚ) (tube_dia refrigerant : String)
    (tube_props : TubeProps) (ref_props : RefProps)
    (htube : TUBE_PROPERTIES tube_dia = some tube_props)
    (href : REFRIGERANT_PROPERTIES refrigerant = some ref_props)
    (htr : 0 < tr_design) (hcfm : 0 < cfm) :
    pipelineInvariants (coilGeometryCore tr_design cfm tube_props)
      (calculate_enhanced_circuits tr_design (coilGeometryCore tr_design cfm tube_props)
        refrigerant)
      (refPerformanceCore tr_design
        (calculate_enhanced_circuits tr_design (coilGeometryCore tr_design cfm tube_props)
          refrigerant) tube_props ref_props) := by
  obtain ⟨hd, harea, hflow, -⟩ := tube_table_facts tube_dia tube_props htube
  obtain ⟨heff, hdens, hcpt, hvisc, hcond, hsh, -⟩ := ref_table_facts refrigerant ref_props href
  set g := coilGeometryCore tr_design cfm tube_props with hg
  have hrows : 1 ≤ g.rows := le_max_left _ _
  have htpr : 1 ≤ g.tubes_per_row := le_max_left _ _
  have htt : g.total_tubes = g.rows * g.tubes_per_row := rfl
  have htt1 : 1 ≤ g.total_tubes := by rw [htt]; nlinarith
  set c := calculate_enhanced_circuits tr_design g refrigerant with hc
  have hcircEq : c = circuitsCore tr_design g ref_props := by
    rw [hc, calculate_enhanced_circuits, href]
  have hc1 : 1 ≤ c := by
    rw [hcircEq]
    simp only [circuitsCore]
    exact le_min
      (le_trans (le_trans (le_max_left _ _) (le_max_left _ _)) (le_max_left _ _)) htt1
  have hc2 : c ≤ g.total_tubes := by
    rw [hcircEq]
    simp only [circuitsCore]
    exact min_le_right _ _
  have htprQ : (1 : ℚ) ≤ (g.tubes_per_row : ℚ) := by exact_mod_cast htpr
  have httQ : (1 : ℚ) ≤ (g.total_tubes : ℚ) := by exact_mod_cast htt1
  have hcQ : (1 : ℚ) ≤ (c : ℚ) := by exact_mod_cast hc1
  have hA := coilGeometryCore_face_area tr_design cfm tube_props
  have hV := coilGeometryCore_face_velocity tr_design cfm tube_props
  have hS := coilGeometryCore_surface_area tr_design cfm tube_props
  rw [← hg] at hA hV hS
  have hApos : 0 < g.actual_face_area_ft2 := by
    rw [hA]
    have h1 : (0 : ℚ) < TUBE_LENGTH_FT := by norm_num [TUBE_LENGTH_FT]
    have h2 : (0 : ℚ) < TUBE_PITCH_MM / 304.8 := by norm_num [TUBE_PITCH_MM]
    exact mul_pos h1 (mul_pos (lt_of_lt_of_le one_pos htprQ) h2)
  have hVel : 0 ≤ g.actual_face_velocity_fpm := by
    rw [hV]
    exact le_of_lt (div_pos hcfm hApos)
  have hSurf : 0 ≤ g.surface_area_ft2 := by
    rw [hS]
    have h1 : (0 : ℚ) ≤ (g.total_tubes : ℚ) := by linarith
    exact mul_nonneg (mul_nonneg h1 (by norm_num [TUBE_LENGTH_FT])) harea.le
  obtain ⟨hP1, hP2, hP3, hP4, hP5⟩ :=
    refPerformanceCore_fields tr_design c tube_props ref_props
  have hTot : 0 < (refPerformanceCore tr_design c tube_props ref_props).total_mass_flow_lbm_hr := by
    rw [hP1]
    exact div_pos (mul_pos htr (by norm_num [BTU_PER_TR])) heff
  have hcQ0 : (0 : ℚ) < (c : ℚ) := by linarith
  have hPC : 0 <
      (refPerformanceCore tr_design c tube_props ref_props).mass_flow_per_circuit_lbm_hr := by
    rw [hP2]
    exact div_pos hTot hcQ0
  have hVol : 0 <
      (refPerformanceCore tr_design c tube_props ref_props).volumetric_flow_ft3_s := by
    rw [hP3]
    exact div_pos (div_pos hPC (by norm_num)) hdens
  have hflowQ : (0 : ℚ) < tube_props.flow_area_in2 / 144 := by positivity
  have hVelR : 0 ≤ (refPerformanceCore tr_design c tube_props ref_props).velocity_ft_s := by
    rw [hP4]
    exact le_of_lt (div_pos hVol hflowQ)
  have hG : 0 ≤
      (refPerformanceCore tr_design c tube_props ref_props).mass_velocity_lbm_hr_ft2 := by
    rw [hP5]
    exact le_of_lt (div_pos hPC hflowQ)
  exact ⟨hrows, htpr, htt, hc1, hc2, hApos.le, hVel, hSurf, hTot.le, hPC.le, hVelR, hG, hVol.le⟩

/-- Witness for C4 at capacity 10 TR, airflow 4000 CFM, the 1/2-inch tube
and R410A. -/
theorem pipeline_invariants_witness :
    pipelineInvariants (coilGeometryCore 10 4000 tubeHalf)
      (calculate_enhanced_circuits 10 (coilGeometryCore 10 4000 tubeHalf) "R410A")
      (refPerformanceCore 10
        (calculate_enhanced_circuits 10 (coilGeometryCore 10 4000 tubeHalf) "R410A")
        tubeHalf R410A) :=
  pipeline_invariants 10 4000 "1/2 inch" "R410A" tubeHalf R410A TUBE_PROPERTIES_half
    REFRIGERANT_PROPERTIES_R410A (by norm_num) (by norm_num)

-- === Claim C1 ===

theorem heatTransferCore_reynolds (p : RefrigerantPerformance) (tp : TubeProps) (rp : RefProps) :
    (heatTransferCore p tp rp).reynolds =
      (p.mass_velocity_lbm_hr_ft2 : ℝ) * ((tp.inner_dia_in : ℝ) / 12) /
        (rp.dynamic_viscosity_lbm_per_ft_hr : ℝ) := rfl

theorem heatTransferCore_prandtl (p : RefrigerantPerformance) (tp : TubeProps) (rp : RefProps) :
    (heatTransferCore p tp rp).prandtl =
      (rp.specific_heat_btu_per_lbm_f : ℝ) * (rp.dynamic_viscosity_lbm_per_ft_hr : ℝ) /
        (rp.thermal_conductivity_btu_per_hr_ft_f : ℝ) := rfl

theorem heatTransferCore_nusselt (p : RefrigerantPerformance) (tp : TubeProps) (rp : RefProps) :
    (heatTransferCore p tp rp).nusselt =
      if (heatTransferCore p tp rp).reynolds > 10000 then
        ((0.790 * Real.log (heatTransferCore p tp rp).reynolds - 1.64) ^ (-2 : ℤ) / 8 *
            ((heatTransferCore p tp rp).reynolds - 1000) * (heatTransferCore p tp rp).prandtl) /
          (1 + 12.7 *
            Real.sqrt ((0.790 * Real.log (heatTransferCore p tp rp).reynolds - 1.64) ^ (-2 : ℤ) / 8) *
            ((heatTransferCore p tp rp).prandtl ^ ((2 : ℝ) / 3) - 1))
      else if (heatTransferCore p tp rp).reynolds > 2300 then
        0.023 * (heatTransferCore p tp rp).reynolds ^ (0.8 : ℝ) *
          (heatTransferCore p tp rp).prandtl ^ (0.4 : ℝ)
      else 3.66 := rfl

theorem heatTransferCore_regime (p : RefrigerantPerformance) (tp : TubeProps) (rp : RefProps) :
    (heatTransferCore p tp rp).flow_regime =
      if (heatTransferCore p tp rp).reynolds > 4000 then "Turbulent"
      else if (heatTransferCore p tp rp).reynolds > 2300 then "Transition"
      else "Laminar" := rfl

theorem heatTransferCore_h_coeff (p : RefrigerantPerformance) (tp : TubeProps) (rp : RefProps) :
    (heatTransferCore p tp rp).h_coeff =
      (heatTransferCore p tp rp).nusselt * (rp.thermal_conductivity_btu_per_hr_ft_f : ℝ) /
        ((tp.inner_dia_in : ℝ) / 12) := rfl

/-- With both lookups successful, the heat-transfer estimator runs its
core body. -/
theorem calculate_heat_transfer_eq (ref_performance : RefrigerantPerformance)
    (tube_dia refrigerant : String) (tube_props : TubeProps) (ref_props : RefProps)
    (htube : TUBE_PROPERTIES tube_dia = some tube_props)
    (href : REFRIGERANT_PROPERTIES refrigerant = some ref_props) :
    calculate_heat_transfer_coefficient ref_performance tube_dia refrigerant =
      heatTransferCore ref_performance tube_props ref_props := by
  simp only [calculate_heat_transfer_coefficient, htube, href]

/-- Claim C1: the Nusselt correlation is selected by the thresholds
Re > 10000 (Gnielinski), 2300 < Re ≤ 10000 (Dittus-Boelter) and Re ≤ 2300
(Nu = 3.66), while the flow-regime label uses the separate thresholds
4000 and 2300; the convective coefficient is Nu × thermal conductivity /
inner diameter in feet. -/
theorem heat_transfer_correlations (ref_performance : RefrigerantPerformance)
    (tube_dia refrigerant : String) (tube_props : TubeProps) (ref_props : RefProps)
    (htube : TUBE_PROPERTIES tube_dia = some tube_props)
    (href : REFRIGERANT_PROPERTIES refrigerant = some ref_props) :
    ((calculate_heat_transfer_coefficient ref_performance tube_dia refrigerant).reynolds > 10000 →
      (calculate_heat_transfer_coefficient ref_performance tube_dia refrigerant).nusselt =
        ((0.790 * Real.log (calculate_heat_transfer_coefficient ref_performance tube_dia
              refrigerant).reynolds - 1.64) ^ (-2 : ℤ) / 8 *
            ((calculate_heat_transfer_coefficient ref_performance tube_dia refrigerant).reynolds -
              1000) *
            (calculate_heat_transfer_coefficient ref_performance tube_dia refrigerant).prandtl) /
          (1 + 12.7 *
            Real.sqrt ((0.790 * Real.log (calculate_heat_transfer_coefficient ref_performance
              tube_dia refrigerant).reynolds - 1.64) ^ (-2 : ℤ) / 8) *
            ((calculate_heat_transfer_coefficient ref_performance tube_dia
              refrigerant).prandtl ^ ((2 : ℝ) / 3) - 1))) ∧
    (2300 < (calculate_heat_transfer_coefficient ref_performance tube_dia refrigerant).reynolds ∧
        (calculate_heat_transfer_coefficient ref_performance tube_dia refrigerant).reynolds ≤
          10000 →
      (calculate_heat_transfer_coefficient ref_performance tube_dia refrigerant).nusselt =
        0.023 *
          (calculate_heat_transfer_coefficient ref_performance tube_dia
            refrigerant).reynolds ^ (0.8 : ℝ) *
          (calculate_heat_transfer_coefficient ref_performance tube_dia
            refrigerant).prandtl ^ (0.4 : ℝ)) ∧
    ((calculate_heat_transfer_coefficient ref_performance tube_dia refrigerant).reynolds ≤ 2300 →
      (calculate_heat_transfer_coefficient ref_performance tube_dia refrigerant).nusselt = 3.66) ∧
    ((calculate_heat_transfer_coefficient ref_performance tube_dia refrigerant).flow_regime =
        "Turbulent" ↔
      (calculate_heat_transfer_coefficient ref_performance tube_dia refrigerant).reynolds >
        4000) ∧
    ((calculate_heat_transfer_coefficient ref_performance tube_dia refrigerant).flow_regime =
        "Transition" ↔
      2300 < (calculate_heat_transfer_coefficient ref_performance tube_dia refrigerant).reynolds ∧
        (calculate_heat_transfer_coefficient ref_performance tube_dia refrigerant).reynolds ≤
          4000) ∧
    ((calculate_heat_transfer_coefficient ref_performance tube_dia refrigerant).flow_regime =
        "Laminar" ↔
      (calculate_heat_transfer_coefficient ref_performance tube_dia refrigerant).reynolds ≤
        2300) ∧
    (calculate_heat_transfer_coefficient ref_performance tube_dia refrigerant).h_coeff =
      (calculate_heat_transfer_coefficient ref_performance tube_dia refrigerant).nusselt *
        (ref_props.thermal_conductivity_btu_per_hr_ft_f : ℝ) /
        ((tube_props.inner_dia_in : ℝ) / 12) := by
  rw [calculate_heat_transfer_eq ref_performance tube_dia refrigerant tube_props ref_props
    htube href]
  refine ⟨?_, ?_, ?_, ?_, ?_, ?_,
    heatTransferCore_h_coeff ref_performance tube_props ref_props⟩
  · intro h10
    rw [heatTransferCore_nusselt, if_pos h10]
  · rintro ⟨h23, h10⟩
    rw [heatTransferCore_nusselt, if_neg (not_lt.mpr h10), if_pos h23]
  · intro h23
    rw [heatTransferCore_nusselt, if_neg (not_lt.mpr (h23.trans (by norm_num))),
      if_neg (not_lt.mpr h23)]
  · rw [heatTransferCore_regime]
    by_cases h4 : (heatTransferCore ref_performance tube_props ref_props).reynolds > 4000
    · rw [if_pos h4]
      exact iff_of_true rfl h4
    · rw [if_neg h4]
      by_cases h23 : (heatTransferCore ref_performance tube_props ref_props).reynolds > 2300
      · rw [if_pos h23]
        exact iff_of_false (by decide) h4
      · rw [if_neg h23]
        exact iff_of_false (by decide) h4
  · rw [heatTransferCore_regime]
    by_cases h4 : (heatTransferCore ref_performance tube_props ref_props).reynolds > 4000
    · rw [if_pos h4]
      exact iff_of_false (by decide) (fun h => absurd h4 (not_lt.mpr h.2))
    · rw [if_neg h4]
      by_cases h23 : (heatTransferCore ref_performance tube_props ref_props).reynolds > 2300
      · rw [if_pos h23]
        exact iff_of_true rfl ⟨h23, not_lt.mp h4⟩
      · rw [if_neg h23]
        exact iff_of_false (by decide) (fun h => absurd h.1 h23)
  · rw [heatTransferCore_regime]
    by_cases h4 : (heatTransferCore ref_performance tube_props ref_props).reynolds > 4000
    · rw [if_pos h4]
      exact iff_of_false (by decide)
        (fun h => absurd h4 (not_lt.mpr (h.trans (by norm_num))))
    · rw [if_neg h4]
      by_cases h23 : (heatTransferCore ref_performance tube_props ref_props).reynolds > 2300
      · rw [if_pos h23]
        exact iff_of_false (by decide) (fun h => absurd h23 (not_lt.mpr h))
      · rw [if_neg h23]
        exact iff_of_true rfl (not_lt.mp h23)

/-- Witness for C1: the correlation-selection and regime-label properties
at a concrete performance (mass velocity 100000 lbm/hr-ft2), the 1/2-inch
tube and R410A. -/
theorem heat_transfer_correlations_witness :
    ((calculate_heat_transfer_coefficient perfSafeVel "1/2 inch" "R410A").reynolds > 10000 →
      (calculate_heat_transfer_coefficient perfSafeVel "1/2 inch" "R410A").nusselt =
        ((0.790 * Real.log (calculate_heat_transfer_coefficient perfSafeVel "1/2 inch"
              "R410A").reynolds - 1.64) ^ (-2 : ℤ) / 8 *
            ((calculate_heat_transfer_coefficient perfSafeVel "1/2 inch" "R410A").reynolds -
              1000) *
            (calculate_heat_transfer_coefficient perfSafeVel "1/2 inch" "R410A").prandtl) /
          (1 + 12.7 *
            Real.sqrt ((0.790 * Real.log (calculate_heat_transfer_coefficient perfSafeVel
              "1/2 inch" "R410A").reynolds - 1.64) ^ (-2 : ℤ) / 8) *
            ((calculate_heat_transfer_coefficient perfSafeVel "1/2 inch"
              "R410A").prandtl ^ ((2 : ℝ) / 3) - 1))) ∧
    (2300 < (calculate_heat_transfer_coefficient perfSafeVel "1/2 inch" "R410A").reynolds ∧
        (calculate_heat_transfer_coefficient perfSafeVel "1/2 inch" "R410A").reynolds ≤ 10000 →
      (calculate_heat_transfer_coefficient perfSafeVel "1/2 inch" "R410A").nusselt =
        0.023 *
          (calculate_heat_transfer_coefficient perfSafeVel "1/2 inch"
            "R410A").reynolds ^ (0.8 : ℝ) *
          (calculate_heat_transfer_coefficient perfSafeVel "1/2 inch"
            "R410A").prandtl ^ (0.4 : ℝ)) ∧
    ((calculate_heat_transfer_coefficient perfSafeVel "1/2 inch" "R410A").reynolds ≤ 2300 →
      (calculate_heat_transfer_coefficient perfSafeVel "1/2 inch" "R410A").nusselt = 3.66) ∧
    ((calculate_heat_transfer_coefficient perfSafeVel "1/2 inch" "R410A").flow_regime =
        "Turbulent" ↔
      (calculate_heat_transfer_coefficient perfSafeVel "1/2 inch" "R410A").reynolds > 4000) ∧
    ((calculate_heat_transfer_coefficient perfSafeVel "1/2 inch" "R410A").flow_regime =
        "Transition" ↔
      2300 < (calculate_heat_transfer_coefficient perfSafeVel "1/2 inch" "R410A").reynolds ∧
        (calculate_heat_transfer_coefficient perfSafeVel "1/2 inch" "R410A").reynolds ≤ 4000) ∧
    ((calculate_heat_transfer_coefficient perfSafeVel "1/2 inch" "R410A").flow_regime =
        "Laminar" ↔
      (calculate_heat_transfer_coefficient perfSafeVel "1/2 inch" "R410A").reynolds ≤ 2300) ∧
    (calculate_heat_transfer_coefficient perfSafeVel "1/2 inch" "R410A").h_coeff =
      (calculate_heat_transfer_coefficient perfSafeVel "1/2 inch" "R410A").nusselt *
        (R410A.thermal_conductivity_btu_per_hr_ft_f : ℝ) /
        ((tubeHalf.inner_dia_in : ℝ) / 12) :=
  heat_transfer_correlations perfSafeVel "1/2 inch" "R410A" tubeHalf R410A
    TUBE_PROPERTIES_half REFRIGERANT_PROPERTIES_R410A

-- === Claim C2 ===

/-- When the computed Reynolds number is exactly 2300, the regime-label
expression and the Nusselt selection both fall to their final branches. -/
theorem heatTransferCore_at_2300 (p : RefrigerantPerformance) (tp : TubeProps)
    (rp : RefProps) (h2300 : (heatTransferCore p tp rp).reynolds = 2300) :
    (heatTransferCore p tp rp).flow_regime = "Laminar" ∧
    (heatTransferCore p tp rp).nusselt = 3.66 := by
  constructor
  · rw [heatTransferCore_regime, h2300]
    norm_num
  · rw [heatTransferCore_nusselt, h2300]
    norm_num

/-- The concrete performance perfRe2300 produces Reynolds number exactly
2300 with the 1/2-inch tube and R410A. -/
theorem perfRe2300_reynolds :
    (calculate_heat_transfer_coefficient perfRe2300 "1/2 inch" "R410A").reynolds = 2300 := by
  rw [calculate_heat_transfer_eq perfRe2300 "1/2 inch" "R410A" tubeHalf R410A
    TUBE_PROPERTIES_half REFRIGERANT_PROPERTIES_R410A, heatTransferCore_reynolds]
  norm_num [perfRe2300, tubeHalf, R410A]

/-- Counterexample to claim C2: at Reynolds number exactly 2300 the
source's regime expression yields "Laminar", not "Transition" (its
threshold `Re > 2300` is strict), while the Nusselt value is indeed the
laminar 3.66. -/
theorem regime_at_2300_counterexample :
    (calculate_heat_transfer_coefficient perfRe2300 "1/2 inch" "R410A").reynolds = 2300 ∧
    (calculate_heat_transfer_coefficient perfRe2300 "1/2 inch" "R410A").flow_regime =
      "Laminar" ∧
    (calculate_heat_transfer_coefficient perfRe2300 "1/2 inch" "R410A").flow_regime ≠
      "Transition" ∧
    (calculate_heat_transfer_coefficient perfRe2300 "1/2 inch" "R410A").nusselt = 3.66 := by
  have key := calculate_heat_transfer_eq perfRe2300 "1/2 inch" "R410A" tubeHalf R410A
    TUBE_PROPERTIES_half REFRIGERANT_PROPERTIES_R410A
  have h2300 := perfRe2300_reynolds
  rw [key] at h2300 ⊢
  obtain ⟨hLam, hNu⟩ := heatTransferCore_at_2300 perfRe2300 tubeHalf R410A h2300
  exact ⟨h2300, hLam, by rw [hLam]; decide, hNu⟩

/-- Claim C2 amended: an input whose computed Reynolds number equals
exactly 2300 gets flow_regime "Laminar" (the regime threshold `Re > 2300`
is strict, so 2300 itself is not "Transition") and the laminar Nusselt
value 3.66 (the correlation threshold `Re ≤ 2300` is inclusive on the
laminar side). -/
theorem regime_at_exact_2300 (ref_performance : RefrigerantPerformance)
    (tube_dia refrigerant : String) (tube_props : TubeProps) (ref_props : RefProps)
    (htube : TUBE_PROPERTIES tube_dia = some tube_props)
    (href : REFRIGERANT_PROPERTIES refrigerant = some ref_props)
    (h2300 : (calculate_heat_transfer_coefficient ref_performance tube_dia
      refrigerant).reynolds = 2300) :
    (calculate_heat_transfer_coefficient ref_performance tube_dia refrigerant).flow_regime =
      "Laminar" ∧
    (calculate_heat_transfer_coefficient ref_performance tube_dia refrigerant).nusselt =
      3.66 := by
  rw [calculate_heat_transfer_eq ref_performance tube_dia refrigerant tube_props ref_props
    htube href] at h2300 ⊢
  exact heatTransferCore_at_2300 ref_performance tube_props ref_props h2300

/-- Witness for C2's amended statement at the concrete performance whose
Reynolds number is exactly 2300. -/
theorem regime_at_exact_2300_witness :
    (calculate_heat_transfer_coefficient perfRe2300 "1/2 inch" "R410A").flow_regime =
      "Laminar" ∧
    (calculate_heat_transfer_coefficient perfRe2300 "1/2 inch" "R410A").nusselt = 3.66 :=
  regime_at_exact_2300 perfRe2300 "1/2 inch" "R410A" tubeHalf R410A
    TUBE_PROPERTIES_half REFRIGERANT_PROPERTIES_R410A perfRe2300_reynolds

-- === Claim C10 ===

/-- The hyperbolic tangent has derivative `1 / cosh² x`. -/
theorem hasDerivAt_tanh_aux (x : ℝ) : HasDerivAt Real.tanh (1 / Real.cosh x ^ 2) x := by
  have hfun : Real.tanh = fun y => Real.sinh y / Real.cosh y := by
    funext y
    exact Real.tanh_eq_sinh_div_cosh y
  rw [hfun]
  have h := (Real.hasDerivAt_sinh x).div (Real.hasDerivAt_cosh x)
    (ne_of_gt (Real.cosh_pos x))
  convert h using 1
  have hc := Real.cosh_sq_sub_sinh_sq x
  rw [← hc]
  ring

/-- `tanh x / x` is strictly decreasing on the positive reals. -/
theorem tanh_div_self_strictAntiOn :
    StrictAntiOn (fun x => Real.tanh x / x) (Set.Ioi (0 : ℝ)) := by
  have htanh : Continuous Real.tanh := by
    have : Continuous fun y => Real.sinh y / Real.cosh y :=
      Real.continuous_sinh.div Real.continuous_cosh fun y => ne_of_gt (Real.cosh_pos y)
    have hfun : Real.tanh = fun y => Real.sinh y / Real.cosh y := by
      funext y
      exact Real.tanh_eq_sinh_div_cosh y
    rw [hfun]
    exact this
  apply strictAntiOn_of_deriv_neg (convex_Ioi (0 : ℝ))
  · exact ContinuousOn.div htanh.continuousOn continuousOn_id
      fun y hy => ne_of_gt (Set.mem_Ioi.mp hy)
  · intro x hx
    rw [interior_Ioi] at hx
    rw [Set.mem_Ioi] at hx
    have hx0 : x ≠ 0 := ne_of_gt hx
    have hd : HasDerivAt (fun y => Real.tanh y / y)
        ((1 / Real.cosh x ^ 2 * x - Real.tanh x * 1) / x ^ 2) x :=
      (hasDerivAt_tanh_aux x).div (hasDerivAt_id x) hx0
    rw [hd.deriv]
    have hcp := Real.cosh_pos x
    have hxs : x < Real.sinh x * Real.cosh x := by
      have h2 : 2 * x < Real.sinh (2 * x) :=
        (Real.self_lt_sinh_iff (x := 2 * x)).mpr (by linarith)
      rw [Real.sinh_two_mul] at h2
      linarith
    have heq : 1 / Real.cosh x ^ 2 * x - Real.tanh x * 1 =
        (x - Real.sinh x * Real.cosh x) / Real.cosh x ^ 2 := by
      rw [Real.tanh_eq_sinh_div_cosh]
      field_simp
      ring
    rw [heq]
    exact div_neg_of_neg_of_pos
      (div_neg_of_neg_of_pos (by linarith) (pow_pos hcp 2)) (pow_pos hx 2)

/-- The fin-efficiency conditional tends to 1 as mL tends to 0 (it is
identically 1 below the 0.01 cutoff). -/
theorem finEfficiencyOfML_tendsto :
    Filter.Tendsto finEfficiencyOfML (nhds 0) (nhds 1) := by
  have hev : finEfficiencyOfML =ᶠ[nhds (0 : ℝ)] fun _ => (1 : ℝ) := by
    filter_upwards [Iio_mem_nhds (show (0 : ℝ) < 0.01 by norm_num)] with x hx
    simp only [finEfficiencyOfML]
    rw [if_neg (not_lt.mpr (le_of_lt hx))]
    norm_num
  exact tendsto_const_nhds.congr' hev.symm

theorem finEfficiencyCore_fin_efficiency (tube_props : TubeProps) (fpi t fv : ℝ) :
    (finEfficiencyCore tube_props fpi t fv).fin_efficiency =
      finEfficiencyOfML (Real.sqrt (2 * (8 + 0.025 * fv) / (120 * t)) *
        (((TUBE_PITCH_MM : ℝ) / 25.4 - (tube_props.outer_dia_in : ℝ)) / 2)) := rfl

/-- With a successful tube lookup, the fin-efficiency estimator runs its
core body. -/
theorem calculate_fin_efficiency_eq (tube_dia : String) (tube_props : TubeProps)
    (fpi t fv : ℝ) (htube : TUBE_PROPERTIES tube_dia = some tube_props) :
    calculate_fin_efficiency tube_dia fpi t fv = finEfficiencyCore tube_props fpi t fv := by
  simp only [calculate_fin_efficiency, htube]

/-- Claim C10: the fin efficiency is `tanh(mL)/mL` when `mL > 0.01` and
1.0 otherwise, hence tends to 1.0 as mL → 0; and for a fixed face velocity
(and fin thicknesses in the request's valid 0.004–0.015 in range) the fin
efficiency strictly decreases as the fin thickness decreases. -/
theorem fin_efficiency_behavior (tube_dia : String) (tube_props : TubeProps)
    (fpi t fv t1 t2 : ℝ) (htube : TUBE_PROPERTIES tube_dia = some tube_props)
    (hfv : 0 ≤ fv) (ht2 : 0.004 ≤ t2) (h12 : t2 < t1) (ht1 : t1 ≤ 0.015) :
    (calculate_fin_efficiency tube_dia fpi t fv).fin_efficiency =
      finEfficiencyOfML (Real.sqrt (2 * (8 + 0.025 * fv) / (120 * t)) *
        (((TUBE_PITCH_MM : ℝ) / 25.4 - (tube_props.outer_dia_in : ℝ)) / 2)) ∧
    Filter.Tendsto finEfficiencyOfML (nhds 0) (nhds 1) ∧
    (calculate_fin_efficiency tube_dia fpi t2 fv).fin_efficiency <
      (calculate_fin_efficiency tube_dia fpi t1 fv).fin_efficiency := by
  obtain ⟨-, -, -, hout⟩ := tube_table_facts tube_dia tube_props htube
  refine ⟨by rw [calculate_fin_efficiency_eq tube_dia tube_props fpi t fv htube,
      finEfficiencyCore_fin_efficiency], finEfficiencyOfML_tendsto, ?_⟩
  rw [calculate_fin_efficiency_eq tube_dia tube_props fpi t2 fv htube,
    calculate_fin_efficiency_eq tube_dia tube_props fpi t1 fv htube,
    finEfficiencyCore_fin_efficiency, finEfficiencyCore_fin_efficiency]
  have houtR : (tube_props.outer_dia_in : ℝ) ≤ 0.625 := by
    have h1 : ((tube_props.outer_dia_in : ℚ) : ℝ) ≤ ((0.625 : ℚ) : ℝ) := Rat.cast_le.mpr hout
    have h2 : ((0.625 : ℚ) : ℝ) = (0.625 : ℝ) := by norm_num
    rw [h2] at h1
    exact h1
  have hpitch : (TUBE_PITCH_MM : ℝ) = 25 := by norm_num [TUBE_PITCH_MM]
  have hL0 : (0.179 : ℝ) ≤
      ((TUBE_PITCH_MM : ℝ) / 25.4 - (tube_props.outer_dia_in : ℝ)) / 2 := by
    rw [hpitch]
    nlinarith
  have hL : (0 : ℝ) <
      ((TUBE_PITCH_MM : ℝ) / 25.4 - (tube_props.outer_dia_in : ℝ)) / 2 := by linarith
  have ht2pos : (0 : ℝ) < t2 := by linarith
  have ht1pos : (0 : ℝ) < t1 := by linarith
  have hh8 : (8 : ℝ) ≤ 8 + 0.025 * fv := by nlinarith
  have hhpos : (0 : ℝ) < 2 * (8 + 0.025 * fv) := by linarith
  have harg1lb : (16 : ℝ) / 1.8 ≤ 2 * (8 + 0.025 * fv) / (120 * t1) := by
    apply div_le_div₀ (by linarith) (by linarith) (by linarith) (by nlinarith)
  have hm1 : (2.9 : ℝ) ≤ Real.sqrt (2 * (8 + 0.025 * fv) / (120 * t1)) := by
    have h1 : (2.9 : ℝ) ≤ Real.sqrt (16 / 1.8) := by
      rw [Real.le_sqrt (by norm_num) (by norm_num)]
      norm_num
    exact h1.trans (Real.sqrt_le_sqrt harg1lb)
  have hm1L : (0.01 : ℝ) <
      Real.sqrt (2 * (8 + 0.025 * fv) / (120 * t1)) *
        (((TUBE_PITCH_MM : ℝ) / 25.4 - (tube_props.outer_dia_in : ℝ)) / 2) := by
    have hml := mul_le_mul hm1 hL0 (by norm_num) (le_trans (by norm_num) hm1)
    linarith
  have hargs : 2 * (8 + 0.025 * fv) / (120 * t1) < 2 * (8 + 0.025 * fv) / (120 * t2) :=
    div_lt_div_of_pos_left hhpos (by linarith) (by linarith)
  have hm12 : Real.sqrt (2 * (8 + 0.025 * fv) / (120 * t1)) <
      Real.sqrt (2 * (8 + 0.025 * fv) / (120 * t2)) :=
    Real.sqrt_lt_sqrt (le_of_lt (div_pos hhpos (by linarith))) hargs
  have hmL12 : Real.sqrt (2 * (8 + 0.025 * fv) / (120 * t1)) *
        (((TUBE_PITCH_MM : ℝ) / 25.4 - (tube_props.outer_dia_in : ℝ)) / 2) <
      Real.sqrt (2 * (8 + 0.025 * fv) / (120 * t2)) *
        (((TUBE_PITCH_MM : ℝ) / 25.4 - (tube_props.outer_dia_in : ℝ)) / 2) :=
    mul_lt_mul_of_pos_right hm12 hL
  have hm2L : (0.01 : ℝ) <
      Real.sqrt (2 * (8 + 0.025 * fv) / (120 * t2)) *
        (((TUBE_PITCH_MM : ℝ) / 25.4 - (tube_props.outer_dia_in : ℝ)) / 2) :=
    hm1L.trans hmL12
  simp only [finEfficiencyOfML]
  rw [if_pos hm2L, if_pos hm1L]
  exact tanh_div_self_strictAntiOn (Set.mem_Ioi.mpr (by linarith))
    (Set.mem_Ioi.mpr (by linarith)) hmL12

/-- Witness for C10 at the 1/2-inch tube, 12 FPI, 450 FPM face velocity
and thicknesses 0.006 in and 0.004 in. -/
theorem fin_efficiency_behavior_witness :
    (calculate_fin_efficiency "1/2 inch" 12 0.006 450).fin_efficiency =
      finEfficiencyOfML (Real.sqrt (2 * (8 + 0.025 * 450) / (120 * 0.006)) *
        (((TUBE_PITCH_MM : ℝ) / 25.4 - (tubeHalf.outer_dia_in : ℝ)) / 2)) ∧
    Filter.Tendsto finEfficiencyOfML (nhds 0) (nhds 1) ∧
    (calculate_fin_efficiency "1/2 inch" 12 0.004 450).fin_efficiency <
      (calculate_fin_efficiency "1/2 inch" 12 0.006 450).fin_efficiency :=
  fin_efficiency_behavior "1/2 inch" tubeHalf 12 0.006 450 0.006 0.004
    TUBE_PROPERTIES_half (by norm_num) (by norm_num) (by norm_num) (by norm_num)
